import Mathlib

/-!
Verification of the mididings Python binding module
(`src/trunk/src/python_module.cc`) against its natural-language
specification.

The source file is the Boost.Python binding layer: it declares which
classes, constructors and methods the C++ core exposes to the external
(Python) control layer, and the `EngineWrap` class that forwards the
engine's scene-switch notification into Python.  We embed that binding
table as explicit Lean data, transcribed declaration by declaration from
the source, and the control flow of `EngineWrap::scene_switch_callback`
as a small action trace.  Parts of the repository that the claims need
but that are not under `src/` (the `MidiEvent` value type from
`midi_event.hh` and the dispatch path of `Engine::process` from
`engine.cc`) are modelled from the spec and marked as such.
-/

namespace Mididings

/-- Parameter types occurring in the `boost::python::init<...>` template
arguments of the binding file. -/
inductive PType where
  | str        -- std::string const &
  | strVec     -- std::vector<std::string> const &
  | intT       -- int
  | intVec     -- std::vector<int> const &
  | floatT     -- float
  | floatVec   -- std::vector<float> const &
  | boolT      -- bool
  | modulePtr  -- Patch::ModulePtr
  | moduleVec  -- Patch::ModuleVector
  | unitPtr    -- boost::shared_ptr<Unit>
  | unitExPtr  -- boost::shared_ptr<UnitEx>
  | filterPtr  -- boost::shared_ptr<Filter>
  | sysexData  -- MidiEvent::SysExData const &
  | pyObject   -- boost::python::object
deriving DecidableEq

/-- Constructor exposure of a bound class: `bp::no_init`, or an
`init<...>` signature (a default constructor is `params []`). -/
inductive InitSpec where
  | noInit
  | params (tys : List PType)
deriving DecidableEq

/-- One `class_<...>` declaration of the binding file: the Python-side
name, the declared base class (via `bases<...>`), the constructor
exposure, whether `boost::noncopyable` is given, whether
`enable_pickling()` is called, and the wrapper class (the second
`class_` template argument), when present. -/
structure ClassBinding where
  name : String
  base : Option String
  ini : InitSpec
  noncopyable : Bool
  pickling : Bool
  wrap : Option String
deriving DecidableEq

/-- Shorthand for the common case of the binding file: a noncopyable
class without pickling and without a wrapper class. -/
def cls (n : String) (b : Option String) (i : InitSpec) : ClassBinding :=
  ⟨n, b, i, true, false, none⟩

/-- The `Engine` binding (source lines 111 to 125):
`class_<Engine, EngineWrap, noncopyable>("Engine", init<std::string const &,
std::string const &, std::vector<std::string> const &,
std::vector<std::string> const &, bool>())`. -/
def engineBinding : ClassBinding :=
  ⟨"Engine", none,
   InitSpec.params [PType.str, PType.str, PType.strVec, PType.strVec, PType.boolT],
   true, false, some "EngineWrap"⟩

/-- The `MidiEvent` binding (source lines 139 to 150): `class_<MidiEvent>`
with no `noncopyable` tag, a default constructor, and `enable_pickling()`. -/
def midiEventBinding : ClassBinding :=
  ⟨"MidiEvent", none, InitSpec.params [], false, true, none⟩

/-- The `SceneSwitch` binding (source line 190):
`class_<SceneSwitch, bases<UnitEx>, noncopyable>("SceneSwitch", init<int, int>())`. -/
def sceneSwitchBinding : ClassBinding :=
  cls "SceneSwitch" (some "UnitEx") (InitSpec.params [PType.intT, PType.intT])

/-- The `SubSceneSwitch` binding (source line 191):
`init<int, int, bool>()`. -/
def subSceneSwitchBinding : ClassBinding :=
  cls "SubSceneSwitch" (some "UnitEx")
    (InitSpec.params [PType.intT, PType.intT, PType.boolT])

/-- The `Call` binding (source line 194):
`class_<Call, bases<UnitEx>, noncopyable>("Call", init<bp::object, bool, bool>())`. -/
def callBinding : ClassBinding :=
  cls "Call" (some "UnitEx")
    (InitSpec.params [PType.pyObject, PType.boolT, PType.boolT])

/-- Every `class_<...>` declaration of `BOOST_PYTHON_MODULE(_mididings)`,
in source order (lines 111 to 194). -/
def moduleBindings : List ClassBinding :=
  [ engineBinding
  , cls "Patch" none (InitSpec.params [PType.modulePtr])
  , cls "Module" none InitSpec.noInit
  , cls "Chain" (some "Module") (InitSpec.params [PType.moduleVec])
  , cls "Fork" (some "Module") (InitSpec.params [PType.moduleVec, PType.boolT])
  , cls "Single" (some "Module") (InitSpec.params [PType.unitPtr])
  , cls "Extended" (some "Module") (InitSpec.params [PType.unitExPtr])
  , midiEventBinding
  , cls "Unit" none InitSpec.noInit
  , cls "UnitEx" none InitSpec.noInit
  , cls "Filter" (some "Unit") InitSpec.noInit
  , cls "Pass" (some "Unit") (InitSpec.params [PType.boolT])
  , cls "TypeFilter" (some "Filter") (InitSpec.params [PType.intT])
  , cls "InvertedFilter" (some "Filter") (InitSpec.params [PType.filterPtr, PType.boolT])
  , cls "PortFilter" (some "Filter") (InitSpec.params [PType.intVec])
  , cls "ChannelFilter" (some "Filter") (InitSpec.params [PType.intVec])
  , cls "KeyFilter" (some "Filter") (InitSpec.params [PType.intT, PType.intT, PType.intVec])
  , cls "VelocityFilter" (some "Filter") (InitSpec.params [PType.intT, PType.intT])
  , cls "CtrlFilter" (some "Filter") (InitSpec.params [PType.intVec])
  , cls "CtrlValueFilter" (some "Filter") (InitSpec.params [PType.intT, PType.intT])
  , cls "ProgramFilter" (some "Filter") (InitSpec.params [PType.intVec])
  , cls "SysExFilter" (some "Filter") (InitSpec.params [PType.sysexData, PType.boolT])
  , cls "Port" (some "Unit") (InitSpec.params [PType.intT])
  , cls "Channel" (some "Unit") (InitSpec.params [PType.intT])
  , cls "Transpose" (some "Unit") (InitSpec.params [PType.intT])
  , cls "Velocity" (some "Unit") (InitSpec.params [PType.floatT, PType.intT])
  , cls "VelocitySlope" (some "Unit")
      (InitSpec.params [PType.intVec, PType.floatVec, PType.intT])
  , cls "CtrlMap" (some "Unit") (InitSpec.params [PType.intT, PType.intT])
  , cls "CtrlRange" (some "Unit")
      (InitSpec.params [PType.intT, PType.intT, PType.intT, PType.intT, PType.intT])
  , cls "CtrlCurve" (some "Unit") (InitSpec.params [PType.intT, PType.floatT, PType.intT])
  , cls "PitchbendRange" (some "Unit")
      (InitSpec.params [PType.intT, PType.intT, PType.intT, PType.intT])
  , cls "Generator" (some "Unit")
      (InitSpec.params [PType.intT, PType.intT, PType.intT, PType.intT, PType.intT])
  , cls "SysExGenerator" (some "Unit") (InitSpec.params [PType.intT, PType.sysexData])
  , cls "Sanitize" (some "UnitEx") (InitSpec.params [])
  , sceneSwitchBinding
  , subSceneSwitchBinding
  , callBinding
  ]

/-- Module-level `def(...)` declarations of the binding file: only
`available_backends` (source line 108). -/
def moduleFunctions : List String := ["available_backends"]

/-- One `.def(...)` method on a bound class: the Python-side name and
the C++ member function it is bound to. -/
structure PyMethod where
  pyName : String
  target : String
deriving DecidableEq

/-- The unconditionally compiled `.def(...)` methods of the `Engine`
binding, in source order (lines 113 to 121). -/
def engineMethodsBase : List PyMethod :=
  [ ⟨"connect_ports", "Engine::connect_ports"⟩
  , ⟨"add_scene", "Engine::add_scene"⟩
  , ⟨"set_processing", "Engine::set_processing"⟩
  , ⟨"start", "Engine::start"⟩
  , ⟨"switch_scene", "Engine::switch_scene"⟩
  , ⟨"current_scene", "Engine::current_scene"⟩
  , ⟨"current_subscene", "Engine::current_subscene"⟩
  , ⟨"output_event", "Engine::output_event"⟩
  , ⟨"time", "Engine::time"⟩
  ]

/-- The `.def(...)` methods of the `Engine` binding as a function of the
`ENABLE_TEST` preprocessor flag: lines 122 to 124 add
`.def("process", &Engine::process_test)` only when `ENABLE_TEST` is
defined. -/
def engineMethods (enableTest : Bool) : List PyMethod :=
  engineMethodsBase ++
    (if enableTest then [⟨"process", "Engine::process_test"⟩] else [])

/-- How the engine delivers the scene-switch notification to the
external layer: either by invoking a named method on the derived host
object (the derived-in-host pattern), or by calling an explicitly
registered handler closure. -/
inductive CallbackDispatch where
  | subclassMethod (methodName : String)
  | registeredHandler
deriving DecidableEq

/-- The dispatch mechanism used by `EngineWrap::scene_switch_callback`
(source line 82): `boost::python::call_method<void>(_self,
"scene_switch_callback", scene, subscene)` invokes the method named
`scene_switch_callback` on the stored `_self` object of the Python
class derived from `Engine`. -/
def engineCallbackDispatch : CallbackDispatch :=
  CallbackDispatch.subclassMethod "scene_switch_callback"

/-- Result of the Python-level call performed by
`boost::python::call_method`: it either returns normally or raises,
and every Python-side exception surfaces on the C++ side as
`boost::python::error_already_set` (carrying the pending Python error,
abstracted here as a code). -/
inductive PyCallResult where
  | ok
  | raised (err : Nat)
deriving DecidableEq

/-- Primitive actions of the dispatch path, for the lock-discipline
claims: acquiring and releasing the process-wide control lock (the GIL,
taken by `das::scoped_gil_lock`), the callback invocation into the
external layer, error reporting (`PyErr_Print`), patch evaluation, and
output dispatch. -/
inductive Action where
  | acquire
  | release
  | callCallback
  | reportErr
  | evalPatch
  | dispatchOut
deriving DecidableEq

/-- Action trace of `EngineWrap::scene_switch_callback` (source lines
79 to 86): `das::scoped_gil_lock gil;` acquires the control lock on
entry; the `try` block performs the `call_method` invocation; a raised
`error_already_set` is caught and reported with `PyErr_Print()`; the
scoped lock is released when the function scope exits, on both paths. -/
def wrapperTrace : PyCallResult → List Action
  | PyCallResult.ok =>
      [Action.acquire, Action.callCallback, Action.release]
  | PyCallResult.raised _ =>
      [Action.acquire, Action.callCallback, Action.reportErr, Action.release]

/-- Modelled from the spec: the dispatch path of `Engine::process`
(`engine.cc`, not under `src/`).  Per the spec, `process` evaluates the
current patch, dispatches the output events, and then, if a scene
switch was signalled during evaluation, transitions the scene, runs the
new scene's init patch, and invokes the external notification callback
(which in the source is `EngineWrap::scene_switch_callback`, embedded
above as `wrapperTrace`). -/
def processTrace (switchSignaled : Bool) (r : PyCallResult) : List Action :=
  [Action.evalPatch, Action.dispatchOut] ++
    (if switchSignaled then Action.evalPatch :: wrapperTrace r else [])

/-- Checks, given the current lock depth, that the control lock is
never held while an `evalPatch` action runs and that no `release`
occurs without a matching `acquire`. -/
def noLockDuringEval : Nat → List Action → Bool
  | _, [] => true
  | d, Action.acquire :: rest => noLockDuringEval (d + 1) rest
  | d, Action.release :: rest => (d != 0) && noLockDuringEval (d - 1) rest
  | d, Action.evalPatch :: rest => (d == 0) && noLockDuringEval d rest
  | d, _ :: rest => noLockDuringEval d rest

/-- Checks that every `callCallback` action is immediately preceded by
an `acquire` of the control lock and is followed by its `release`
before any action other than error reporting.  The Boolean state is
true between the callback invocation and the release. -/
def callLockBracket : Bool → List Action → Bool
  | false, [] => true
  | false, Action.acquire :: Action.callCallback :: rest => callLockBracket true rest
  | false, Action.callCallback :: _ => false
  | false, _ :: rest => callLockBracket false rest
  | true, Action.release :: rest => callLockBracket false rest
  | true, Action.reportErr :: rest => callLockBracket true rest
  | true, _ => false

/-- The control-lock discipline of the spec: the lock is acquired
immediately before the callback invocation and released immediately
after it, and it is never held across a patch evaluation. -/
def controlLockDiscipline (tr : List Action) : Bool :=
  noLockDuringEval 0 tr && callLockBracket false tr

/-- Outcome of `EngineWrap::scene_switch_callback` as a function of the
behaviour of the external layer's handler: `Except.error` would mean an
exception propagating out of the wrapper, `Except.ok printed` a normal
return with the given errors reported via `PyErr_Print`.  Transcribed
from source lines 79 to 86: the `call_method` result is inspected, a
raised `error_already_set` is caught and printed, and the wrapper
returns normally. -/
def sceneSwitchCallbackRun (handler : Int → Int → PyCallResult)
    (scene subscene : Int) : Except Nat (List Nat) :=
  match handler scene subscene with
  | PyCallResult.ok => Except.ok []
  | PyCallResult.raised e => Except.ok [e]

/-- The errors `PyErr_Print` reports for a given call result: none on a
normal return, the pending error on a raise. -/
def printedOf : PyCallResult → List Nat
  | PyCallResult.ok => []
  | PyCallResult.raised e => [e]

/-- Modelled from the spec: the `MidiEvent` value type (`midi_event.hh`,
not under `src/`).  Per the spec an Event is a tagged record with a
`type` tag, integer `port`, `channel`, `data1`, `data2` fields, and an
optional variable-length sysex byte sequence. -/
structure MidiEvent where
  type : Int
  port : Int
  channel : Int
  data1 : Int
  data2 : Int
  sysex : List Nat
deriving DecidableEq

/-- Modelled from the spec: the flat-field serialization of an Event
used for snapshot/restore and pickling (the concrete pickling support
lives behind `enable_pickling()` on the `MidiEvent` binding, source
line 149, with the field list of lines 140 to 146).  The flat list is
the five scalar fields, the sysex length, then the sysex bytes. -/
def serialize (e : MidiEvent) : List Int :=
  e.type :: e.port :: e.channel :: e.data1 :: e.data2 ::
    (e.sysex.length : Int) :: e.sysex.map Int.ofNat

/-- Modelled from the spec: reconstruction of an Event from its flat
field list; fails on a malformed list. -/
def deserialize : List Int → Option MidiEvent
  | t :: p :: c :: d1 :: d2 :: n :: rest =>
      if (rest.length : Int) = n then
        some ⟨t, p, c, d1, d2, rest.map Int.toNat⟩
      else
        none
  | _ => none

/-- Modelled from the spec: `MidiEvent::operator==` (`midi_event.hh`,
not under `src/`; exposed by `.def(bp::self == bp::self)`, source line
147).  Per the spec, equality is structural over type, port, channel,
data1, data2 and the sysex bytes. -/
def MidiEvent.beq (a b : MidiEvent) : Bool :=
  a.type == b.type && a.port == b.port && a.channel == b.channel &&
    a.data1 == b.data1 && a.data2 == b.data2 && a.sysex == b.sysex

/-- Modelled from the spec: `MidiEvent::operator!=` (exposed by
`.def(bp::self != bp::self)`, source line 148), the negation of
`operator==`. -/
def MidiEvent.bneq (a b : MidiEvent) : Bool :=
  !(MidiEvent.beq a b)

/-- The nine Engine operation names the claim C1 lists. -/
def claimedEngineOps : List String :=
  [ "connect_ports", "add_scene", "set_processing", "start", "switch_scene"
  , "current_scene", "current_subscene", "output_event", "time" ]

/-- C1 counterexample: in a build with `ENABLE_TEST` defined, the
exposed Engine operation set is not exactly the nine operations the
claim lists, since `process` is also exposed (source lines 122 to
124). -/
theorem C1_cex :
    (engineMethods true).map PyMethod.pyName ≠ claimedEngineOps := by
  decide

/-- C1 (amended): the module exposes `available_backends`, the Engine
constructor takes `(backend_name, client_name, input_port_names,
output_port_names, verbose_flag)`, and the exposed Engine operation set
is exactly `connect_ports, add_scene, set_processing, start,
switch_scene, current_scene, current_subscene, output_event, time` in
a build without `ENABLE_TEST`, with `process` additionally exposed when
`ENABLE_TEST` is defined. -/
theorem C1_thm :
    "available_backends" ∈ moduleFunctions ∧
    engineBinding.ini =
      InitSpec.params [PType.str, PType.str, PType.strVec, PType.strVec, PType.boolT] ∧
    (engineMethods false).map PyMethod.pyName = claimedEngineOps ∧
    (engineMethods true).map PyMethod.pyName = claimedEngineOps ++ ["process"] := by
  refine ⟨?_, ?_, ?_, ?_⟩ <;> decide

/-- C2: on every dispatch of `Engine::process` — whether or not a scene
switch was signalled, and whether or not the external callback raises —
the control lock is acquired immediately before the callback invocation
and released immediately after it, is never held while a patch is
evaluated, and is never released without being held. -/
theorem C2_thm :
    ∀ (switchSignaled : Bool) (r : PyCallResult),
      controlLockDiscipline (processTrace switchSignaled r) = true := by
  intro s r
  cases s <;> cases r <;> rfl

/-- C3 counterexample: the engine's scene-switch notification is not
delivered through an explicitly registered handler closure; the source
uses the derived-in-host pattern (`call_method` on the stored `_self`
of the Python class derived from `Engine`, source line 82). -/
theorem C3_cex :
    engineCallbackDispatch ≠ CallbackDispatch.registeredHandler := by
  decide

/-- C3 (amended): the Engine delivers scene-change notifications via
the derived-in-host pattern: the external layer subclasses the bound
`Engine` type (whose wrapper class is `EngineWrap`), the wrapper stores
the host object and invokes its `scene_switch_callback` method, and no
explicit registration operation for the callback is exposed on the
Engine binding. -/
theorem C3_thm :
    engineCallbackDispatch = CallbackDispatch.subclassMethod "scene_switch_callback" ∧
    engineBinding.wrap = some "EngineWrap" ∧
    "scene_switch_callback" ∉ (engineMethods true).map PyMethod.pyName ∧
    ((engineMethods true).map PyMethod.pyName).all
      (fun m => !(m == "register_scene_switch_callback")) = true := by
  refine ⟨?_, ?_, ?_, ?_⟩ <;> decide

/-- C4: in the testing build (with `ENABLE_TEST` defined, the
configuration whose purpose is deterministic test driving), the Engine
binding exposes `process`, bound synchronously to
`Engine::process_test` (source lines 122 to 124). -/
theorem C4_thm (enableTest : Bool) (h : enableTest = true) :
    (⟨"process", "Engine::process_test"⟩ : PyMethod) ∈ engineMethods enableTest := by
  subst h
  decide

/-- Witness for C4 at the concrete testing configuration. -/
theorem C4_witness :
    (⟨"process", "Engine::process_test"⟩ : PyMethod) ∈ engineMethods true :=
  C4_thm true rfl

/-- C5: for every Event, including events with empty or arbitrarily
long sysex payloads, deserializing the flat-field serialization
reconstructs the original event. -/
theorem C5_roundtrip (e : MidiEvent) :
    deserialize (serialize e) = some e := by
  cases e with
  | mk t p c d1 d2 sx =>
    have hmap : List.map Int.toNat (sx.map Int.ofNat) = sx := by
      induction sx with
      | nil => rfl
      | cons a tl ih =>
          simp only [List.map_cons, ih]
          rfl
    simp only [serialize, deserialize, List.length_map, hmap, if_pos]

/-- C6: the exposed equality on Events is structural — two events
compare equal exactly when they agree on type, port, channel, data1,
data2 and the sysex byte sequence — and the exposed inequality is the
negation of equality. -/
theorem C6_thm (a b : MidiEvent) :
    (MidiEvent.beq a b = true ↔
      (a.type = b.type ∧ a.port = b.port ∧ a.channel = b.channel ∧
       a.data1 = b.data1 ∧ a.data2 = b.data2 ∧ a.sysex = b.sysex)) ∧
    MidiEvent.bneq a b = !(MidiEvent.beq a b) := by
  constructor
  · simp [MidiEvent.beq, and_assoc]
  · rfl

/-- C7: the Module composition variants constructible through the
interface are exactly `Chain(children)`, `Fork(children, bool)`,
`Single(shared Unit)` and `Extended(shared UnitEx)`, and the abstract
bases `Module`, `Unit`, `UnitEx` and `Filter` are bound with
`no_init`, so they cannot be instantiated directly. -/
theorem C7_thm :
    (moduleBindings.filter (fun b => b.base == some "Module")).map
        (fun b => (b.name, b.ini)) =
      [ ("Chain", InitSpec.params [PType.moduleVec])
      , ("Fork", InitSpec.params [PType.moduleVec, PType.boolT])
      , ("Single", InitSpec.params [PType.unitPtr])
      , ("Extended", InitSpec.params [PType.unitExPtr]) ] ∧
    (moduleBindings.filter
        (fun b => b.name == "Module" || b.name == "Unit" ||
                  b.name == "UnitEx" || b.name == "Filter")).map
        (fun b => (b.name, b.ini)) =
      [ ("Module", InitSpec.noInit), ("Unit", InitSpec.noInit)
      , ("UnitEx", InitSpec.noInit), ("Filter", InitSpec.noInit) ] := by
  constructor <;> decide

/-- C8: the control UnitEx variants are constructed with exactly the
claimed parameters: `SceneSwitch` with two integers, `SubSceneSwitch`
with two integers and a boolean, and `Call` with a Python handler
object and two booleans. -/
theorem C8_thm :
    sceneSwitchBinding ∈ moduleBindings ∧
    subSceneSwitchBinding ∈ moduleBindings ∧
    callBinding ∈ moduleBindings ∧
    sceneSwitchBinding.ini = InitSpec.params [PType.intT, PType.intT] ∧
    subSceneSwitchBinding.ini =
      InitSpec.params [PType.intT, PType.intT, PType.boolT] ∧
    callBinding.ini =
      InitSpec.params [PType.pyObject, PType.boolT, PType.boolT] := by
  refine ⟨?_, ?_, ?_, ?_, ?_, ?_⟩ <;> decide

/-- C9: for every behaviour of the external layer's
`scene_switch_callback` implementation, the wrapper returns normally —
it never propagates an exception — and on a raise it reports exactly
the raised error. -/
theorem C9_thm :
    ∀ (handler : Int → Int → PyCallResult) (scene subscene : Int),
      sceneSwitchCallbackRun handler scene subscene =
        Except.ok (printedOf (handler scene subscene)) := by
  intro handler scene subscene
  cases h : handler scene subscene <;>
    simp [sceneSwitchCallbackRun, printedOf, h]

/-- C10: every class bound at the interface is `noncopyable` except
`MidiEvent`, and `MidiEvent` is the only one with pickling enabled. -/
theorem C10_thm :
    (moduleBindings.all
      (fun b =>
        (b.noncopyable == !(b.name == "MidiEvent")) &&
        (b.pickling == (b.name == "MidiEvent")))) = true := by
  decide

end Mididings
